import Mathlib

set_option linter.unusedVariables false

/-!
Shallow embedding of `src/server/app.py` (ReportLab A4 RTL PDF generator)
and verification of its specification claims.

Modelling conventions:
* Python strings are Lean `String`; `Optional[str]` is `Option String`.
* Filesystem and font-registration effects are passed in explicitly:
  `fsExists : String → Bool` models `os.path.exists`, and
  `registerOk : String → Bool` models whether
  `pdfmetrics.registerFont(TTFont(name, path))` succeeds for a given path
  (the source itself treats registration as fallible: it wraps the bold
  registration in `try/except`).
* The external libraries `arabic_reshaper` and `python-bidi` are not part of
  this repository; they are modelled parametrically as a `ShapingLibs` record
  of pure functions (`reshape`, `get_display`), so theorems quantify over any
  library behaviour and state the library facts they need as hypotheses.
* `datetime.now()` is an ambient-clock read; it is embedded as an explicit
  `now : Int` parameter counting whole days since 1970-01-01 (the source only
  ever uses the date part, via `strftime` on day-aligned values).
* Lengths in points are exact rationals (`ℚ`); ReportLab's `mm` constant is
  `72 / 25.4 = 360/127` points.
* Fallible code returns `Except`.
-/

set_option autoImplicit false

namespace App

/-- Configuration dictionary passed to `arabic_reshaper.ArabicReshaper`.
`config_for_true_type_font` builds one from a font file; `ArabicReshaper({})`
(the fallback in the module-level `except` branch) is the empty dictionary,
modelled as an empty entry list. -/
structure ReshaperConfig where
  entries : List (String × Bool)
  deriving Repr, DecidableEq

/-- The `ArabicReshaper({})` fallback configuration (empty dict). -/
def ReshaperConfig.empty : ReshaperConfig := ⟨[]⟩

/-- External shaping libraries (`arabic_reshaper`, `bidi.algorithm`),
modelled as pure functions: `reshape` is `ArabicReshaper(config).reshape`,
`get_display` is `bidi.algorithm.get_display`. -/
structure ShapingLibs where
  reshape : ReshaperConfig → String → String
  get_display : String → String

/-- Module-level initialization of the global `reshaper`:
`try: reshaper = ArabicReshaper(config_for_true_type_font(FONT_REGULAR_PATH))`
`except Exception: reshaper = ArabicReshaper({})`.
The outcome of `config_for_true_type_font` (which may raise) is passed in as
an `Except`; the handler degrades to the empty configuration. -/
def reshaperInit (configResult : Except String ReshaperConfig) : ReshaperConfig :=
  match configResult with
  | .ok c => c
  | .error _ => ReshaperConfig.empty

/-- `def rtl(text): if text is None: return ""; return get_display(reshaper.reshape(str(text)))`.
The global `reshaper`'s configuration and the external libraries are explicit
parameters. -/
def rtl (L : ShapingLibs) (cfg : ReshaperConfig) (text : Option String) : String :=
  match text with
  | none => ""
  | some s => L.get_display (L.reshape cfg s)

/-- Errors raised out of `ensure_fonts`. -/
inductive FontError where
  /-- `FileNotFoundError` for a missing regular font path. -/
  | fontNotFound (path : String)
  /-- An exception propagating from `pdfmetrics.registerFont` on the
  regular font (the source does not guard this call). -/
  | registerFailed (path : String)
  deriving Repr, DecidableEq

/-- `def ensure_fonts(regular_path, bold_path) -> tuple[str, str]`.
Raises `FileNotFoundError` when `regular_path` does not exist; registers the
regular font unguarded (so a registration failure propagates); registers the
bold font only when `bold_path` is truthy (non-`None` and non-empty, per
Python `if bold_path and ...`) and exists, falling back to the regular name
when it is absent or its registration raises. -/
def ensure_fonts (fsExists : String → Bool) (registerOk : String → Bool)
    (regular_path : String) (bold_path : Option String) :
    Except FontError (String × String) :=
  if ¬ fsExists regular_path then
    .error (.fontNotFound regular_path)
  else if ¬ registerOk regular_path then
    .error (.registerFailed regular_path)
  else
    let regular_name := "Arabic-Regular"
    let bold_name :=
      match bold_path with
      | some bp =>
        if bp ≠ "" ∧ fsExists bp then
          if registerOk bp then "Arabic-Bold" else regular_name
        else regular_name
      | none => regular_name
    .ok (regular_name, bold_name)

/-- ReportLab's `mm` unit: `72 / 25.4` points. -/
def mmPt : ℚ := 360 / 127

/-- A4 page width in points (`210 * mm`). -/
def A4_w : ℚ := 210 * mmPt

/-- A4 page height in points (`297 * mm`). -/
def A4_h : ℚ := 297 * mmPt

/-- Python `weekday()` (Monday = 0 … Sunday = 6) of a day count since
1970-01-01, which was a Thursday (`weekday 3`). -/
def pyWeekday (d : Int) : Int := (d + 3) % 7

/-- Days-count → (year, month, day) in the proleptic Gregorian calendar
(Howard Hinnant's `civil_from_days`, with floor divisions). -/
def civilFromDays (z : Int) : Int × Int × Int :=
  let z := z + 719468
  let era := z / 146097
  let doe := z - era * 146097
  let yoe := (doe - doe / 1460 + doe / 36524 - doe / 146096) / 365
  let y := yoe + era * 400
  let doy := doe - (365 * yoe + yoe / 4 - yoe / 100)
  let mp := (5 * doy + 2) / 153
  let d := doy - (153 * mp + 2) / 5 + 1
  let m := mp + (if mp < 10 then 3 else -9)
  (y + (if m ≤ 2 then 1 else 0), m, d)

/-- Left-pad the decimal representation of a nonnegative integer with zeros. -/
def padZeros (width : Nat) (n : Int) : String :=
  let s := toString n.toNat
  String.mk (List.replicate (width - s.length) '0') ++ s

/-- `d.strftime("%Y/%m/%d")` on a day count since 1970-01-01. -/
def strftimeYMD (d : Int) : String :=
  let c := civilFromDays d
  padZeros 4 c.1 ++ "/" ++ padZeros 2 c.2.1 ++ "/" ++ padZeros 2 c.2.2

/-- `def current_week_sun_mon_tue()`: the Sunday/Monday/Tuesday of the current
week (nearest past Sunday, or today itself), each as `strftime("%Y/%m/%d")`.
The source reads the clock implicitly (`today = datetime.now()` inside the
body, no parameter); the ambient clock is embedded as the explicit `now`
day-count argument. -/
def current_week_sun_mon_tue (now : Int) : String × String × String :=
  let diff_to_sun := (pyWeekday now - 6) % 7
  let sun := now - diff_to_sun
  let mon := sun + 1
  let tue := sun + 2
  (strftimeYMD sun, strftimeYMD mon, strftimeYMD tue)

/-- The data handed to the ReportLab `Table` flowable: the row list (each row
a left-to-right list of cell strings), the fixed column widths in points, and
the horizontal alignment. Style commands (`FONT`, `GRID`, padding, …) affect
only visual styling and are not modelled. -/
structure RLTable where
  rows : List (List String)
  colWidths : List ℚ
  hAlign : String
  deriving DecidableEq

/-- `def _fields_row(font_name, admin_name, period, week, term)`:
`headers = [rtl("الفصل الدراسي"), rtl("الأسبوع"), rtl("الحصة"), rtl("اسم الإدارية")]`,
`values = [rtl(term or ""), rtl(week or ""), rtl(period or ""), rtl(admin_name)]`,
`Table([headers, values], colWidths=[38*mm, 30*mm, 28*mm, 64*mm], hAlign="RIGHT")`.
Python `x or ""` on a string is the identity except that it is already a
string here, so it is embedded as the string itself. -/
def _fields_row (L : ShapingLibs) (cfg : ReshaperConfig) (font_name : String)
    (admin_name period week term : String) : RLTable :=
  let headers := [rtl L cfg (some "الفصل الدراسي"), rtl L cfg (some "الأسبوع"),
                  rtl L cfg (some "الحصة"), rtl L cfg (some "اسم الإدارية")]
  let values := [rtl L cfg (some term), rtl L cfg (some week),
                 rtl L cfg (some period), rtl L cfg (some admin_name)]
  let widths := [38 * mmPt, 30 * mmPt, 28 * mmPt, 64 * mmPt]
  { rows := [headers, values], colWidths := widths, hAlign := "RIGHT" }

/-- `def _date_row(font_name, date_str)`:
`Table([[rtl(date_str), rtl("التاريخ")]], colWidths=[40*mm, 20*mm], hAlign="RIGHT")`. -/
def _date_row (L : ShapingLibs) (cfg : ReshaperConfig) (font_name : String)
    (date_str : String) : RLTable :=
  { rows := [[rtl L cfg (some date_str), rtl L cfg (some "التاريخ")]],
    colWidths := [40 * mmPt, 20 * mmPt], hAlign := "RIGHT" }

/-- `def _visit_table(font_name, day_label, klass, follow, note)`:
`head = [rtl("ملاحظات"), rtl("متابعة الجولة"), rtl("الفصل"), rtl("اليوم")]`,
`row = [rtl(note or ""), rtl(follow or ""), rtl(klass or ""), rtl(day_label)]`,
`Table([head, row], colWidths=[60*mm, 60*mm, 25*mm, 25*mm], hAlign="RIGHT")`. -/
def _visit_table (L : ShapingLibs) (cfg : ReshaperConfig) (font_name : String)
    (day_label klass follow note : String) : RLTable :=
  let head := [rtl L cfg (some "ملاحظات"), rtl L cfg (some "متابعة الجولة"),
               rtl L cfg (some "الفصل"), rtl L cfg (some "اليوم")]
  let row := [rtl L cfg (some note), rtl L cfg (some follow),
              rtl L cfg (some klass), rtl L cfg (some day_label)]
  let widths := [60 * mmPt, 60 * mmPt, 25 * mmPt, 25 * mmPt]
  { rows := [head, row], colWidths := widths, hAlign := "RIGHT" }

/-- A primitive drawing operation on the ReportLab canvas, as issued by the
page-decoration callback. `drawImage` is included so that the presence or
absence of logo drawing is expressible; the source never issues it. -/
inductive DrawOp where
  /-- `canvas.setFont(font, size)`. -/
  | setFont (font : String) (size : ℚ)
  /-- `canvas.drawRightString(x, y, text)`: text right-aligned at `x`. -/
  | drawRightString (x y : ℚ) (text : String)
  /-- `canvas.drawImage(path, x, y, w, h)` (logo drawing). -/
  | drawImage (path : String) (x y w h : ℚ)
  deriving DecidableEq

/-- Whether a canvas operation draws an image. -/
def DrawOp.isImage : DrawOp → Bool
  | .drawImage _ _ _ _ _ => true
  | _ => false

/-- The `for ln in lines:` loop of `draw_header_footer`: each line is drawn
right-aligned at `x`, starting at height `y` and stepping down 13 points. -/
def drawLinesLoop (L : ShapingLibs) (cfg : ReshaperConfig) (x : ℚ) :
    ℚ → List String → List DrawOp
  | _, [] => []
  | y, ln :: rest =>
    .drawRightString x y (rtl L cfg (some ln)) :: drawLinesLoop L cfg x (y - 13) rest

/-- The fixed header lines drawn on every page. -/
def headerLines : List String :=
  ["وزارة التعليم",
   "الإدارة العامة للتعليم بمكة المكرمة",
   "مكتب تعليم العوالي",
   "ابتدائية أم منيع الأنصارية"]

/-- `def draw_header_footer(canvas, doc_obj, font_regular)`: the operations
issued on the canvas, in order. `page_w, page_h = A4`, `margin = 15*mm`,
`top = page_h - margin`; the four header lines are drawn right-aligned at
`page_w - margin` descending by 13 points, then the fixed signature line is
drawn right-aligned at `footer_y = margin + 8*mm`. -/
def draw_header_footer (L : ShapingLibs) (cfg : ReshaperConfig)
    (font_regular : String) : List DrawOp :=
  let margin : ℚ := 15 * mmPt
  let top := A4_h - margin
  .setFont font_regular 11
    :: drawLinesLoop L cfg (A4_w - margin) top headerLines
    ++ [.setFont font_regular 12,
        .drawRightString (A4_w - margin) (margin + 8 * mmPt)
          (rtl L cfg (some "مديرة المدرسة / ابتسام القرني"))]

/-- A flowable of the platypus story. -/
inductive Flowable where
  /-- `Paragraph(text, style)`, identified by the style name. -/
  | paragraph (text : String) (style : String)
  /-- `Spacer(w, h)`. -/
  | spacer (w h : ℚ)
  /-- A `Table` flowable. -/
  | table (t : RLTable)
  deriving DecidableEq

/-- The document handed to `SimpleDocTemplate(...).build(story, onFirstPage=on_page,
onLaterPages=on_page)`: margins, the story, and the two page-decoration
callbacks. The callbacks depend only on the closed-over `font_regular` (not on
the canvas or doc object), so each is embedded as its list of canvas
operations. -/
structure PdfDoc where
  rightMargin : ℚ
  leftMargin : ℚ
  topMargin : ℚ
  bottomMargin : ℚ
  story : List Flowable
  onFirstPage : List DrawOp
  onLaterPages : List DrawOp

/-- The page-decoration operations the layout engine applies to page `i`
(0-based) of a built document: `onFirstPage` decorates the first page and
`onLaterPages` every subsequent page.
Modelled from the spec: ReportLab's `SimpleDocTemplate.build` is outside this
repository; per the spec, pagination invokes the registered decoration
callback on the first and every later page. -/
def pageDecoration (doc : PdfDoc) (i : Nat) : List DrawOp :=
  if i = 0 then doc.onFirstPage else doc.onLaterPages

/-- `FONT_REGULAR_PATH`, relative to the runtime-dependent `BASE_DIR`. -/
def FONT_REGULAR_PATH (base_dir : String) : String :=
  base_dir ++ "/fonts/Tajawal-Medium.ttf"

/-- `FONT_BOLD_PATH`, relative to the runtime-dependent `BASE_DIR`. -/
def FONT_BOLD_PATH (base_dir : String) : String :=
  base_dir ++ "/fonts/Tajawal-Bold.ttf"

/-- The document `build_pdf_report` assembles once font registration has
yielded `font_regular`: `SimpleDocTemplate` margins, the story — title
paragraph, fields row (with the hard-coded `admin_name`), then for each of
Sunday/Monday/Tuesday a date row and a visit table, with spacers between —
and the same `on_page` callback for the first and all later pages. -/
def report_doc (L : ShapingLibs) (cfg : ReshaperConfig)
    (font_regular : String) (now : Int)
    (period week term : String)
    (sun_class sun_follow sun_note : String)
    (mon_class mon_follow mon_note : String)
    (tue_class tue_follow tue_note : String) : PdfDoc :=
  let admin_name := "ابتسام قاسم الفيفي"
  let (sun_d, mon_d, tue_d) := current_week_sun_mon_tue now
  let story : List Flowable :=
    [.paragraph (rtl L cfg (some "تقرير الجولات الإدارية عبر منصة مدرستي")) "H1",
     .spacer 1 (4 * mmPt),
     .table (_fields_row L cfg font_regular admin_name period week term),
     .spacer 1 (6 * mmPt),
     .table (_date_row L cfg font_regular sun_d),
     .spacer 1 (4 * mmPt),
     .table (_visit_table L cfg font_regular "الأحد" sun_class sun_follow sun_note),
     .spacer 1 (8 * mmPt),
     .table (_date_row L cfg font_regular mon_d),
     .spacer 1 (4 * mmPt),
     .table (_visit_table L cfg font_regular "الإثنين" mon_class mon_follow mon_note),
     .spacer 1 (8 * mmPt),
     .table (_date_row L cfg font_regular tue_d),
     .spacer 1 (4 * mmPt),
     .table (_visit_table L cfg font_regular "الثلاثاء" tue_class tue_follow tue_note),
     .spacer 1 (10 * mmPt)]
  let on_page := draw_header_footer L cfg font_regular
  { rightMargin := 15 * mmPt, leftMargin := 15 * mmPt,
    topMargin := 55 * mmPt, bottomMargin := 25 * mmPt,
    story := story, onFirstPage := on_page, onLaterPages := on_page }

/-- `def build_pdf_report(period, week, term, sun_class, …) -> bytes`:
registers the fonts (propagating any fatal font error) and assembles the
document (`report_doc`) handed to the layout engine. The byte serialization
of the finished PDF is not modelled. -/
def build_pdf_report (L : ShapingLibs) (cfg : ReshaperConfig)
    (fsExists registerOk : String → Bool) (base_dir : String) (now : Int)
    (period week term : String)
    (sun_class sun_follow sun_note : String)
    (mon_class mon_follow mon_note : String)
    (tue_class tue_follow tue_note : String) : Except FontError PdfDoc := do
  let (font_regular, _font_bold) ←
    ensure_fonts fsExists registerOk (FONT_REGULAR_PATH base_dir)
      (some (FONT_BOLD_PATH base_dir))
  pure (report_doc L cfg font_regular now period week term
    sun_class sun_follow sun_note mon_class mon_follow mon_note
    tue_class tue_follow tue_note)

/-- A trivial concrete instantiation of the external shaping libraries, used
to evaluate the embedding at concrete inputs (counterexamples and witnesses):
reshaping and bidi reordering leave the string unchanged. It satisfies the
library facts the theorems assume (empty maps to empty). -/
def idLibs : ShapingLibs :=
  { reshape := fun _ s => s, get_display := fun s => s }

/-- What the page decoration actually draws, stated over an operation list:
each of the four shaped header lines is drawn right-aligned at the right
margin (descending 13 points per line from the top margin), the shaped
signature line is drawn right-aligned at `margin + 8*mm` near the bottom,
every string drawn is right-aligned at the right margin, and no image is
drawn. -/
def headerFooterSpec (L : ShapingLibs) (cfg : ReshaperConfig)
    (ops : List DrawOp) : Prop :=
  let xr : ℚ := A4_w - 15 * mmPt
  let top : ℚ := A4_h - 15 * mmPt
  DrawOp.drawRightString xr top (rtl L cfg (some "وزارة التعليم")) ∈ ops ∧
  DrawOp.drawRightString xr (top - 13)
    (rtl L cfg (some "الإدارة العامة للتعليم بمكة المكرمة")) ∈ ops ∧
  DrawOp.drawRightString xr (top - 26)
    (rtl L cfg (some "مكتب تعليم العوالي")) ∈ ops ∧
  DrawOp.drawRightString xr (top - 39)
    (rtl L cfg (some "ابتدائية أم منيع الأنصارية")) ∈ ops ∧
  DrawOp.drawRightString xr (15 * mmPt + 8 * mmPt)
    (rtl L cfg (some "مديرة المدرسة / ابتسام القرني")) ∈ ops ∧
  (∀ x y t, DrawOp.drawRightString x y t ∈ ops → x = xr) ∧
  ops.filter DrawOp.isImage = []

end App

namespace App

/-- Helper: with the regular font present and registering, `ensure_fonts`
succeeds and the regular identifier is `"Arabic-Regular"`, whatever happens
to the bold font. -/
theorem ensure_fonts_ok (fsExists registerOk : String → Bool)
    (regular_path : String) (bold_path : Option String)
    (h1 : fsExists regular_path = true) (h2 : registerOk regular_path = true) :
    ∃ b, ensure_fonts fsExists registerOk regular_path bold_path =
      .ok ("Arabic-Regular", b) := by
  refine ⟨match bold_path with
    | some bp =>
      if bp ≠ "" ∧ fsExists bp then
        if registerOk bp then "Arabic-Bold" else "Arabic-Regular"
      else "Arabic-Regular"
    | none => "Arabic-Regular", ?_⟩
  simp [ensure_fonts, h1, h2]

/-- C1 (counterexample): at concrete inputs, the first element of the
left-to-right column array is NOT the visually rightmost column: the fields
row's first header cell is not the shaped `اسم الإدارية`, and the visit
table's first header cell is not the shaped `اليوم`. -/
theorem C1_counterexample :
    ((_fields_row idLibs ReshaperConfig.empty "Arabic-Regular"
        "ابتسام قاسم الفيفي" "" "" "").rows.head?.bind List.head?) ≠
      some (rtl idLibs ReshaperConfig.empty (some "اسم الإدارية")) ∧
    ((_visit_table idLibs ReshaperConfig.empty "Arabic-Regular"
        "الأحد" "" "" "").rows.head?.bind List.head?) ≠
      some (rtl idLibs ReshaperConfig.empty (some "اليوم")) := by
  constructor <;> decide

/-- C1 (amended): in both renderer tables the visually rightmost column
(`اسم الإدارية` for the fields row, `اليوم` for the visit table) is the LAST
element of the underlying left-to-right column array passed to the table
engine, for all inputs and any shaping-library behaviour. -/
theorem C1_rightmost_column_is_last (L : ShapingLibs) (cfg : ReshaperConfig)
    (font admin period week term day klass follow note : String) :
    ((_fields_row L cfg font admin period week term).rows.head?.bind
        List.getLast?) = some (rtl L cfg (some "اسم الإدارية")) ∧
    ((_visit_table L cfg font day klass follow note).rows.head?.bind
        List.getLast?) = some (rtl L cfg (some "اليوم")) :=
  ⟨rfl, rfl⟩

/-- C3: for every ambient clock value, `current_week_sun_mon_tue` returns the
most recent Sunday on or before that day and the two following days, each
formatted `YYYY/MM/DD`; the result is a deterministic function of the clock.
(The clock itself is read implicitly inside the source function via
`datetime.now()`, embedded here as the explicit `now` argument.) -/
theorem C3_most_recent_sunday (now : Int) :
    ∃ sun : Int, pyWeekday sun = 6 ∧ sun ≤ now ∧ now < sun + 7 ∧
      current_week_sun_mon_tue now =
        (strftimeYMD sun, strftimeYMD (sun + 1), strftimeYMD (sun + 2)) := by
  refine ⟨now - (pyWeekday now - 6) % 7, ?_, ?_, ?_, rfl⟩ <;>
    simp only [pyWeekday] <;> omega

/-- C4: for every bold path value, if the regular font path does not exist
then `ensure_fonts` fails with the fatal missing-resource error and returns
no font identifiers. -/
theorem C4_missing_regular_font_fatal (fsExists registerOk : String → Bool)
    (regular_path : String) (bold_path : Option String)
    (h : fsExists regular_path = false) :
    ensure_fonts fsExists registerOk regular_path bold_path =
      .error (.fontNotFound regular_path) := by
  simp [ensure_fonts, h]

/-- Witness for C4 at a concrete filesystem and concrete paths. -/
theorem C4_missing_regular_font_fatal_witness :
    (fun _ : String => false) "server/fonts/Tajawal-Medium.ttf" = false ∧
    ensure_fonts (fun _ => false) (fun _ => true)
        "server/fonts/Tajawal-Medium.ttf" (some "server/fonts/Tajawal-Bold.ttf") =
      .error (.fontNotFound "server/fonts/Tajawal-Medium.ttf") :=
  ⟨rfl, C4_missing_regular_font_fatal (fun _ => false) (fun _ => true)
    "server/fonts/Tajawal-Medium.ttf" (some "server/fonts/Tajawal-Bold.ttf") rfl⟩

/-- C5: if the regular font path exists (and the regular font registers, the
source's implicit precondition since that call is unguarded) and the bold
path is `None`, does not exist, or fails to register, then `ensure_fonts`
succeeds with the bold identifier equal to the regular identifier. -/
theorem C5_bold_falls_back_to_regular (fsExists registerOk : String → Bool)
    (regular_path : String) (bold_path : Option String)
    (h1 : fsExists regular_path = true) (h2 : registerOk regular_path = true)
    (h3 : bold_path = none ∨ ∃ bp, bold_path = some bp ∧
        (fsExists bp = false ∨ registerOk bp = false)) :
    ensure_fonts fsExists registerOk regular_path bold_path =
      .ok ("Arabic-Regular", "Arabic-Regular") := by
  rcases h3 with h3 | ⟨bp, hbp, h3⟩
  · subst h3
    simp [ensure_fonts, h1, h2]
  · subst hbp
    rcases h3 with h3 | h3 <;> simp [ensure_fonts, h1, h2, h3]

/-- Witness for C5 at a concrete filesystem where only the regular font file
exists. -/
theorem C5_bold_falls_back_to_regular_witness :
    (fun p : String => p = "server/fonts/Tajawal-Medium.ttf" : String → Bool)
        "server/fonts/Tajawal-Medium.ttf" = true ∧
    (fun _ : String => true) "server/fonts/Tajawal-Medium.ttf" = true ∧
    ensure_fonts (fun p => p = "server/fonts/Tajawal-Medium.ttf") (fun _ => true)
        "server/fonts/Tajawal-Medium.ttf" (some "server/fonts/Tajawal-Bold.ttf") =
      .ok ("Arabic-Regular", "Arabic-Regular") :=
  ⟨by decide, rfl,
   C5_bold_falls_back_to_regular (fun p => p = "server/fonts/Tajawal-Medium.ttf")
     (fun _ => true) "server/fonts/Tajawal-Medium.ttf"
     (some "server/fonts/Tajawal-Bold.ttf") (by decide) rfl
     (Or.inr ⟨"server/fonts/Tajawal-Bold.ttf", rfl, Or.inl (by decide)⟩)⟩

/-- C6: for any external shaping library that maps the empty string to the
empty string (as `arabic_reshaper.reshape` and `bidi.get_display` do), `rtl`
returns the empty string on `None` and on the empty string. -/
theorem C6_rtl_empty_input (L : ShapingLibs) (cfg : ReshaperConfig)
    (h1 : L.reshape cfg "" = "") (h2 : L.get_display "" = "") :
    rtl L cfg none = "" ∧ rtl L cfg (some "") = "" := by
  refine ⟨rfl, ?_⟩
  simp [rtl, h1, h2]

/-- Witness for C6 at a concrete shaping library. -/
theorem C6_rtl_empty_input_witness :
    idLibs.reshape ReshaperConfig.empty "" = "" ∧ idLibs.get_display "" = "" ∧
    (rtl idLibs ReshaperConfig.empty none = "" ∧
      rtl idLibs ReshaperConfig.empty (some "") = "") :=
  ⟨rfl, rfl, C6_rtl_empty_input idLibs ReshaperConfig.empty rfl rfl⟩

/-- C7: `rtl` is deterministic — two calls on the same non-null string under
the same shaping library and configuration yield identical outputs (the
embedding of the source function is pure: its output depends only on the
text and the shaping configuration). -/
theorem C7_rtl_deterministic (L : ShapingLibs) (cfg : ReshaperConfig)
    (s t : String) (h : s = t) :
    rtl L cfg (some s) = rtl L cfg (some t) := by
  rw [h]

/-- Witness for C7 at a concrete string. -/
theorem C7_rtl_deterministic_witness :
    "وزارة التعليم" = "وزارة التعليم" ∧
    rtl idLibs ReshaperConfig.empty (some "وزارة التعليم") =
      rtl idLibs ReshaperConfig.empty (some "وزارة التعليم") :=
  ⟨rfl, C7_rtl_deterministic idLibs ReshaperConfig.empty
    "وزارة التعليم" "وزارة التعليم" rfl⟩

/-- C8: whatever exception `config_for_true_type_font` raises at process
initialization, the module-level handler degrades the reshaper to the default
(empty) configuration, and subsequent `rtl` calls still succeed — they
compute the shaped string under the default configuration (and the empty
string for `None`). -/
theorem C8_init_degrades_never_fails (e : String) (L : ShapingLibs) (s : String) :
    reshaperInit (Except.error e) = ReshaperConfig.empty ∧
    rtl L (reshaperInit (Except.error e)) (some s) =
      L.get_display (L.reshape ReshaperConfig.empty s) ∧
    rtl L (reshaperInit (Except.error e)) none = "" :=
  ⟨rfl, rfl, rfl⟩

/-- Helper: the page-decoration callback satisfies `headerFooterSpec` for any
shaping library, configuration, and registered font name. -/
theorem draw_header_footer_meets_spec (L : ShapingLibs) (cfg : ReshaperConfig)
    (f : String) :
    headerFooterSpec L cfg (draw_header_footer L cfg f) := by
  have hops : draw_header_footer L cfg f =
      [.setFont f 11,
       .drawRightString (A4_w - 15 * mmPt) (A4_h - 15 * mmPt)
         (rtl L cfg (some "وزارة التعليم")),
       .drawRightString (A4_w - 15 * mmPt) (A4_h - 15 * mmPt - 13)
         (rtl L cfg (some "الإدارة العامة للتعليم بمكة المكرمة")),
       .drawRightString (A4_w - 15 * mmPt) (A4_h - 15 * mmPt - 26)
         (rtl L cfg (some "مكتب تعليم العوالي")),
       .drawRightString (A4_w - 15 * mmPt) (A4_h - 15 * mmPt - 39)
         (rtl L cfg (some "ابتدائية أم منيع الأنصارية")),
       .setFont f 12,
       .drawRightString (A4_w - 15 * mmPt) (15 * mmPt + 8 * mmPt)
         (rtl L cfg (some "مديرة المدرسة / ابتسام القرني"))] := by
    simp only [draw_header_footer, drawLinesLoop, headerLines,
      List.cons_append, List.nil_append]
    norm_num [A4_h, A4_w, mmPt]
  unfold headerFooterSpec
  rw [hops]
  refine ⟨by simp, by simp, by simp, by simp, by simp, ?_, rfl⟩
  intro x y t h
  simp only [List.mem_cons, List.not_mem_nil, or_false] at h
  rcases h with h | h | h | h | h | h | h <;>
    simp only [DrawOp.drawRightString.injEq, reduceCtorEq] at h <;>
    exact h.1

/-- C2 (counterexample): at concrete inputs the page-decoration callback
issues no image-drawing operation at all — contrary to the claim that it
draws a centered logo image and a left-aligned logo image on each page. -/
theorem C2_counterexample :
    (draw_header_footer idLibs ReshaperConfig.empty "Arabic-Regular").filter
        DrawOp.isImage = [] ∧
    ¬ ∃ op ∈ draw_header_footer idLibs ReshaperConfig.empty "Arabic-Regular",
        DrawOp.isImage op = true := by
  refine ⟨rfl, ?_⟩
  decide

/-- C2 (amended): the page-decoration callback registered by
`build_pdf_report` is the same for the first and all later pages and is
applied to every page; on each page it draws the right-aligned multi-line
shaped header text and a right-aligned shaped signature line near the bottom
margin, every drawn string right-aligned at the right margin — and it draws
no logo images. -/
theorem C2_page_decoration (L : ShapingLibs) (cfg : ReshaperConfig)
    (fsExists registerOk : String → Bool) (base_dir : String) (now : Int)
    (period week term sc sf sn mc mf mn tc tf tn : String)
    (h1 : fsExists (FONT_REGULAR_PATH base_dir) = true)
    (h2 : registerOk (FONT_REGULAR_PATH base_dir) = true) :
    ∃ doc : PdfDoc,
      build_pdf_report L cfg fsExists registerOk base_dir now
          period week term sc sf sn mc mf mn tc tf tn = .ok doc ∧
      doc.onFirstPage = doc.onLaterPages ∧
      (∀ i : Nat, pageDecoration doc i = doc.onFirstPage) ∧
      headerFooterSpec L cfg doc.onFirstPage := by
  obtain ⟨b, hef⟩ := ensure_fonts_ok fsExists registerOk
    (FONT_REGULAR_PATH base_dir) (some (FONT_BOLD_PATH base_dir)) h1 h2
  refine ⟨report_doc L cfg "Arabic-Regular" now period week term
    sc sf sn mc mf mn tc tf tn, ?_, rfl, ?_, ?_⟩
  · unfold build_pdf_report
    rw [hef]
    rfl
  · intro i
    unfold pageDecoration
    split <;> rfl
  · exact draw_header_footer_meets_spec L cfg "Arabic-Regular"

/-- Witness for C2 (amended) at a concrete filesystem, shaping library, and
report input. -/
theorem C2_page_decoration_witness :
    (fun _ : String => true) (FONT_REGULAR_PATH "server") = true ∧
    (fun _ : String => true) (FONT_REGULAR_PATH "server") = true ∧
    (∃ doc : PdfDoc,
      build_pdf_report idLibs ReshaperConfig.empty (fun _ => true) (fun _ => true)
          "server" 20738 "" "" "" "" "" "" "" "" "" "" "" "" = .ok doc ∧
      doc.onFirstPage = doc.onLaterPages ∧
      (∀ i : Nat, pageDecoration doc i = doc.onFirstPage) ∧
      headerFooterSpec idLibs ReshaperConfig.empty doc.onFirstPage) :=
  ⟨rfl, rfl,
   C2_page_decoration idLibs ReshaperConfig.empty (fun _ => true) (fun _ => true)
     "server" 20738 "" "" "" "" "" "" "" "" "" "" "" "" rfl rfl⟩

/-- C10: for every report input (and any shaping-library behaviour), the
fields row built by `build_pdf_report` carries the hard-coded administrator
name: its value row's last (visually rightmost) cell is the shaped constant
`ابتسام قاسم الفيفي`, independent of every caller-supplied field. -/
theorem C10_admin_name_hardcoded (L : ShapingLibs) (cfg : ReshaperConfig)
    (fsExists registerOk : String → Bool) (base_dir : String) (now : Int)
    (period week term sc sf sn mc mf mn tc tf tn : String)
    (h1 : fsExists (FONT_REGULAR_PATH base_dir) = true)
    (h2 : registerOk (FONT_REGULAR_PATH base_dir) = true) :
    ∃ doc : PdfDoc,
      build_pdf_report L cfg fsExists registerOk base_dir now
          period week term sc sf sn mc mf mn tc tf tn = .ok doc ∧
      doc.story.get? 2 = some (.table (_fields_row L cfg "Arabic-Regular"
        "ابتسام قاسم الفيفي" period week term)) ∧
      ((_fields_row L cfg "Arabic-Regular" "ابتسام قاسم الفيفي"
          period week term).rows.get? 1).bind List.getLast? =
        some (rtl L cfg (some "ابتسام قاسم الفيفي")) := by
  obtain ⟨b, hef⟩ := ensure_fonts_ok fsExists registerOk
    (FONT_REGULAR_PATH base_dir) (some (FONT_BOLD_PATH base_dir)) h1 h2
  refine ⟨report_doc L cfg "Arabic-Regular" now period week term
    sc sf sn mc mf mn tc tf tn, ?_, rfl, rfl⟩
  unfold build_pdf_report
  rw [hef]
  rfl

/-- Witness for C10 at a concrete filesystem, shaping library, and report
input. -/
theorem C10_admin_name_hardcoded_witness :
    (fun _ : String => true) (FONT_REGULAR_PATH "server") = true ∧
    (fun _ : String => true) (FONT_REGULAR_PATH "server") = true ∧
    (∃ doc : PdfDoc,
      build_pdf_report idLibs ReshaperConfig.empty (fun _ => true) (fun _ => true)
          "server" 20738 "الأولى" "الثالث" "1447" "" "" "" "" "" "" "" "" "" =
        .ok doc ∧
      doc.story.get? 2 = some (.table (_fields_row idLibs ReshaperConfig.empty
        "Arabic-Regular" "ابتسام قاسم الفيفي" "الأولى" "الثالث" "1447")) ∧
      ((_fields_row idLibs ReshaperConfig.empty "Arabic-Regular"
          "ابتسام قاسم الفيفي" "الأولى" "الثالث" "1447").rows.get? 1).bind
          List.getLast? =
        some (rtl idLibs ReshaperConfig.empty (some "ابتسام قاسم الفيفي"))) :=
  ⟨rfl, rfl,
   C10_admin_name_hardcoded idLibs ReshaperConfig.empty (fun _ => true)
     (fun _ => true) "server" 20738 "الأولى" "الثالث" "1447"
     "" "" "" "" "" "" "" "" "" rfl rfl⟩

/-- C9: the column widths of every table are the fixed millimeter constants
of its table type (fields row 38/30/28/64 mm, date row 40/20 mm, visit table
60/60/25/25 mm), and two renders with different cell contents produce
identical column widths. -/
theorem C9_fixed_column_widths (L : ShapingLibs) (cfg : ReshaperConfig)
    (font admin period week term date day klass follow note : String)
    (admin2 period2 week2 term2 date2 day2 klass2 follow2 note2 : String) :
    (_fields_row L cfg font admin period week term).colWidths =
      [38 * mmPt, 30 * mmPt, 28 * mmPt, 64 * mmPt] ∧
    (_date_row L cfg font date).colWidths = [40 * mmPt, 20 * mmPt] ∧
    (_visit_table L cfg font day klass follow note).colWidths =
      [60 * mmPt, 60 * mmPt, 25 * mmPt, 25 * mmPt] ∧
    (_fields_row L cfg font admin2 period2 week2 term2).colWidths =
      (_fields_row L cfg font admin period week term).colWidths ∧
    (_date_row L cfg font date2).colWidths = (_date_row L cfg font date).colWidths ∧
    (_visit_table L cfg font day2 klass2 follow2 note2).colWidths =
      (_visit_table L cfg font day klass follow note).colWidths :=
  ⟨rfl, rfl, rfl, rfl, rfl, rfl⟩

end App
